import Mathlib

/-!
Verification development for the protein-mpnn-tying-utils repository.

The Python sources under src/tying_utils are shallowly embedded as pure Lean
functions.  Conventions used throughout:

* Python floats (3D coordinates, tie weights) are modelled as exact rationals.
  The only arithmetic the embedded code performs on them is building values and
  one comparison `distance > 10`, which is embedded as the equivalent
  `squared distance > 100` (both sides are nonnegative, so the comparison is
  unchanged and no square root is needed).
* Python dicts are modelled as insertion-ordered association lists
  (`List (String × _)`); `pyDictSet` mirrors `d[k] = v` (overwrite in place,
  or append a fresh key at the end), matching CPython's ordered-dict
  semantics.
* Code paths on which the Python function raises an uncaught exception
  (IndexError, UnboundLocalError, AttributeError, TypeError, ...) are modelled
  by `Option`/`Except` results: `none`/`.error` means the call raises instead
  of returning.  Where the raised message matters to a claim the embedding
  uses `Except String` and reproduces the message text.
-/

set_option linter.unusedVariables false

set_option synthInstance.maxSize 2000

set_option allowUnsafeReducibility true in
attribute [semireducible] Rat.add Rat.sub Rat.mul

/-- Python-style string subscript `s[i]`: negative indices count from the end,
an index out of range raises IndexError (modelled as `none`). -/
def pyStrGet (s : String) (i : Int) : Option Char :=
  let n : Int := (s.length : Int)
  let j : Int := if i < 0 then i + n else i
  if 0 ≤ j ∧ j < n then s.toList.get? j.toNat else none

/-- Python dict assignment `d[k] = v` on an insertion-ordered dict: overwrite
the value in place if the key is present, otherwise append the new key at the
end. -/
def pyDictSet {α : Type} (d : List (String × α)) (k : String) (v : α) :
    List (String × α) :=
  if (d.lookup k).isSome then
    d.map (fun p => if p.1 = k then (k, v) else p)
  else
    d ++ [(k, v)]

/-- A residue of a pose, as the embedded code observes it: its chain number
(`residue.chain()`, 1-based in pyrosetta), its one-letter code
(`residue.name1()`), and its named-atom coordinates (`residue.xyz(name)` /
`residue.atom(name)`; a missing atom name raises, modelled by `Option` at the
lookup sites). -/
structure Residue where
  chainNum : Nat
  name1 : Char
  atoms : List (String × (ℚ × ℚ × ℚ))
deriving DecidableEq

/-- Squared Euclidean distance between two 3D points.  The source compares
`ca1.distance(ca2) > 10`; since both sides are nonnegative this is equivalent
to `distSq > 100`, which avoids square roots. -/
def distSq (a b : ℚ × ℚ × ℚ) : ℚ :=
  (a.1 - b.1) * (a.1 - b.1) + (a.2.1 - b.2.1) * (a.2.1 - b.2.1) +
    (a.2.2 - b.2.2) * (a.2.2 - b.2.2)

/-! ## rfdiffusion_utils.split_chains_by_residue_distance

The Python loop runs `for residue_index in range(1, total_residue())`, i.e.
over residue pairs (i, i+1) for i = 1 .. N-1.  Each iteration appends residue
i to the current chain accumulator and to the `all` accumulator, then closes
the current chain when the consecutive-CA distance exceeds 10.  (The guard
`if residue_index == input_pose.total_residue(): continue` inside the loop is
dead code: the range never reaches `total_residue()`.)  After the loop the
variable `r2` — the last residue — is appended and the final chain is closed.
The secondary `distance > 4` check only prints a diagnostic and does not
affect the result, so it is not modelled.
-/

/-- One pass of the chain-splitting loop.  `splitChainsAux r1 rest cur chains
all` processes residue `r1` with the remaining residues `rest`, the open chain
accumulator `cur`, the closed chains `chains`, and the `all` accumulator.
Returns `none` when a residue lacks a `CA` atom (`residue.xyz('CA')`
raises). -/
def splitChainsAux :
    Residue → List Residue → List Residue → List (List Residue) →
    List Residue → Option (List (List Residue) × List Residue)
  | r1, [], cur, chains, all =>
    -- end of the loop: append the last residue and close the final chain
    some (chains ++ [cur ++ [r1]], all ++ [r1])
  | r1, r2 :: rest, cur, chains, all =>
    match r1.atoms.lookup "CA" with
    | none => none
    | some ca1 =>
      match r2.atoms.lookup "CA" with
      | none => none
      | some ca2 =>
        if distSq ca1 ca2 > 100 then
          splitChainsAux r2 rest [] (chains ++ [cur ++ [r1]]) (all ++ [r1])
        else
          splitChainsAux r2 rest (cur ++ [r1]) chains (all ++ [r1])

/-- The chain-name alphabet local to `split_chains_by_residue_distance`. -/
def chain_names26 : String := "ABCDEFGHIJKLMNOPQRSTUVWXYZ"

/-- Assign discovery-order names `chain_names[0], chain_names[1], ...` to the
closed chains, as the Python dict insertions do.  Returns `none` when the
index runs past the 26-letter alphabet (`chain_names[cur_chain_index]` raises
IndexError). -/
def assignChainNames : Nat → List (List Residue) →
    Option (List (String × List Residue))
  | _, [] => some []
  | i, c :: cs =>
    match chain_names26.toList.get? i with
    | none => none
    | some ch => (assignChainNames (i + 1) cs).map (fun rest =>
        (Char.toString ch, c) :: rest)

/-- Embedding of `split_chains_by_residue_distance` (rfdiffusion_utils.py).
The result models the returned dict: the named chains in discovery order
followed by the `'all'` entry.  For a pose with fewer than two residues the
pairwise loop body never runs, so the Python reference to `r2` after the loop
raises UnboundLocalError — modelled by `none`. -/
def split_chains_by_residue_distance (input_pose : List Residue) :
    Option (List (String × List Residue)) :=
  match input_pose with
  | r1 :: r2 :: rest =>
    match splitChainsAux r1 (r2 :: rest) [] [] [] with
    | none => none
    | some (chains, all_residue) =>
      match assignChainNames 0 chains with
      | none => none
      | some named => some (named ++ [("all", all_residue)])
  | _ => none

/-! ## pose_to_json

`get_pose_details_by_chain` walks the residues in order, names each residue's
chain by `CHAIN_NAMES[residue.chain() - 1]` over the fixed ten-letter alphabet,
and accumulates per-chain sequence and per-atom coordinate lists.
`residue.atom(name)` on a missing atom raises; the ten-letter indexing raises
IndexError for chain numbers above 10.
-/

/-- The module-level `CHAIN_NAMES` constant of pose_to_json.py. -/
def CHAIN_NAMES : String := "ABCDEFGHIJ"

/-- The module-level `DEFAULT_DESIRED_ATOMS` constant of pose_to_json.py. -/
def DEFAULT_DESIRED_ATOMS : List String := ["N", "CA", "C", "O"]

/-- Per-chain accumulator of `get_pose_details_by_chain`: the dict
`{'xyz': {...}, 'sequence': '...'}`. -/
structure ChainDetails where
  xyz : List (String × List (ℚ × ℚ × ℚ))
  sequence : String
deriving DecidableEq

/-- The fresh per-chain accumulator `{'xyz': {}, 'sequence': ''}`. -/
def emptyChainDetails : ChainDetails := { xyz := [], sequence := "" }

/-- The inner atom loop of `get_pose_details_by_chain`: for each desired atom
name, look the atom up on the residue (raising — `none` — when absent) and
append its coordinate triple to the `<atom>_chain_<chain>` list. -/
def processAtoms (residue : Residue) (chain_name : String) :
    List String → ChainDetails → Option ChainDetails
  | [], cd => some cd
  | desired_atom :: rest, cd =>
    match residue.atoms.lookup desired_atom with
    | none => none
    | some coord =>
      let atom_chain_name := desired_atom ++ "_chain_" ++ chain_name
      let cur := (cd.xyz.lookup atom_chain_name).getD []
      processAtoms residue chain_name rest
        { cd with xyz := pyDictSet cd.xyz atom_chain_name (cur ++ [coord]) }

/-- The residue loop of `get_pose_details_by_chain`.  `none` models an
uncaught exception: chain number outside the ten-letter alphabet, or a missing
desired atom. -/
def getPoseDetailsGo (desired_atoms : List String) :
    List Residue → List (String × ChainDetails) →
    Option (List (String × ChainDetails))
  | [], chains => some chains
  | residue :: rest, chains =>
    match pyStrGet CHAIN_NAMES ((residue.chainNum : Int) - 1) with
    | none => none
    | some ch =>
      let chain_name := Char.toString ch
      let cd0 := (chains.lookup chain_name).getD emptyChainDetails
      let cd1 := { cd0 with sequence := cd0.sequence.push residue.name1 }
      match processAtoms residue chain_name desired_atoms cd1 with
      | none => none
      | some cd2 =>
        getPoseDetailsGo desired_atoms rest (pyDictSet chains chain_name cd2)

/-- Embedding of `get_pose_details_by_chain` (pose_to_json.py). -/
def get_pose_details_by_chain (input_pose : List Residue)
    (desired_atoms : List String) : Option (List (String × ChainDetails)) :=
  getPoseDetailsGo desired_atoms input_pose []

/-- Embedding of `get_full_sequence_from_pose` (pose_to_json.py): the
concatenation of every residue's one-letter code in pose order. -/
def get_full_sequence_from_pose (pose : List Residue) : String :=
  String.mk (pose.map Residue.name1)

/-- The record built by `make_protein_mpnn_pdb_input`.  The Python dict holds
`name`, `num_of_chains`, `seq`, and per chain letter C the flattened keys
`seq_chain_C` / `coords_chain_C`; the per-chain part is kept here as the
chain-details list those keys are generated from. -/
structure PoseRecord where
  name : String
  num_of_chains : Nat
  seq : String
  chain_entries : List (String × ChainDetails)
deriving DecidableEq

/-- Embedding of `make_protein_mpnn_pdb_input` (pose_to_json.py); `none` when
`get_pose_details_by_chain` raises. -/
def make_protein_mpnn_pdb_input (pose_name : String) (pose : List Residue) :
    Option PoseRecord :=
  let full_sequence := get_full_sequence_from_pose pose
  match get_pose_details_by_chain pose DEFAULT_DESIRED_ATOMS with
  | none => none
  | some pose_details =>
    some { name := pose_name
           num_of_chains := pose_details.length
           seq := full_sequence
           chain_entries := pose_details }

/-! ## tied_input_builder.create_fixed_and_tied_residue_sets

Phase 1 normalises the pairing rules: a two-element rule gets weight 1.0, a
three-element rule carries its own weight.  Phase 2 scans the residues once,
computing each chain's residue count and 1-based starting index, naming chains
by `CHAIN_NAMES[chain - 1]` over the eight-letter alphabet local to the
function.  Phase 3 walks the rules in order: unknown chain names raise
`ValueError(f"Invalid chain names: {chain_1}, {chain_2}")`; unequal lengths
fail the assert with message
`f"Chains {chain_1} ({len1}) and {chain_2} ({len2}) must have the same
length"`; otherwise one tied record per offset 1..L is appended.  The
`known_tied_chains` set, the `designed_residues` argument and the computed
`chain_pos` only feed code that is commented out, and `fixed_residues_by_chain`
is returned as the empty dict.
-/

/-- The `CHAIN_NAMES` alphabet local to `create_fixed_and_tied_residue_sets`
(tied_input_builder.py) — only eight letters here. -/
def TIED_CHAIN_NAMES : String := "ABCDEFGH"

/-- A chain-pairing rule as passed to `create_fixed_and_tied_residue_sets`: a
two-element tuple `(chain_1, chain_2)` or a three-element tuple
`(chain_1, chain_2, weight)`. -/
inductive TieRule where
  | pair (chain_1 chain_2 : String)
  | triple (chain_1 chain_2 : String) (weight : ℚ)
deriving DecidableEq

/-- First chain name of a rule. -/
def TieRule.chain1 : TieRule → String
  | .pair c _ => c
  | .triple c _ _ => c

/-- Second chain name of a rule. -/
def TieRule.chain2 : TieRule → String
  | .pair _ c => c
  | .triple _ c _ => c

/-- Rule normalisation performed by the first loop of
`create_fixed_and_tied_residue_sets`: a missing weight defaults to 1.0. -/
def normRule : TieRule → String × String × ℚ
  | .pair chain_1 chain_2 => (chain_1, chain_2, 1)
  | .triple chain_1 chain_2 weight => (chain_1, chain_2, weight)

/-- The tied value `[[i], [weight]]` stored under each chain key of a tied
record. -/
def mkTiedVal (i : Nat) (weight : ℚ) : List Nat × List ℚ := ([i], [weight])

/-- One tied record: the Python dict
`{chain_1: [[i], [weight]], chain_2: [[i], [weight]]}` (dict semantics: for
`chain_1 = chain_2` the second insertion overwrites the first). -/
abbrev TiedRecord := List (String × (List Nat × List ℚ))

/-- Build the dict `{chain_1: [[i], [weight]], chain_2: [[i], [weight]]}`. -/
def mkTiedRecord (chain_1 chain_2 : String) (i : Nat) (weight : ℚ) :
    TiedRecord :=
  pyDictSet (pyDictSet [] chain_1 (mkTiedVal i weight)) chain_2
    (mkTiedVal i weight)

/-- Increment `d[k] += 1` on an association-list dict (key assumed present, as
the source guarantees). -/
def alistIncr (d : List (String × Nat)) (k : String) : List (String × Nat) :=
  d.map (fun p => if p.1 = k then (p.1, p.2 + 1) else p)

/-- The chain-length / chain-start scan of `create_fixed_and_tied_residue_sets`
(`for i in range(1, total_residue() + 1)`), with `i` the 1-based residue
index.  `none` models the IndexError raised when a residue's chain number
falls outside the eight-letter alphabet. -/
def chainLengthsStartsGo : Nat → List Residue → List (String × Nat) →
    List (String × Nat) → Option (List (String × Nat) × List (String × Nat))
  | _, [], chain_lengths, chain_starts => some (chain_lengths, chain_starts)
  | i, residue :: rest, chain_lengths, chain_starts =>
    match pyStrGet TIED_CHAIN_NAMES ((residue.chainNum : Int) - 1) with
    | none => none
    | some ch =>
      let chain_name := Char.toString ch
      if (chain_lengths.lookup chain_name).isSome then
        chainLengthsStartsGo (i + 1) rest (alistIncr chain_lengths chain_name)
          chain_starts
      else
        chainLengthsStartsGo (i + 1) rest
          (alistIncr (chain_lengths ++ [(chain_name, 0)]) chain_name)
          (chain_starts ++ [(chain_name, i)])

/-- Chain lengths and 1-based chain start indices of the combined pose, in
first-seen chain order. -/
def chainLengthsStarts (combined_pose : List Residue) :
    Option (List (String × Nat) × List (String × Nat)) :=
  chainLengthsStartsGo 1 combined_pose [] []

/-- The rule loop of `create_fixed_and_tied_residue_sets`: for each normalised
rule check both chain names, assert equal lengths, then append one tied record
per offset `i` in 1..L.  (The loop also computes `chain_pos = i +
chain_start_pos`, which is dead: it only feeds commented-out code.)  Error
messages reproduce the Python `ValueError` / `AssertionError` texts. -/
def buildTiedLoop (chain_lengths chain_starts : List (String × Nat)) :
    List (String × String × ℚ) → List TiedRecord →
    Except String (List TiedRecord)
  | [], acc => .ok acc
  | (chain_1, chain_2, weight) :: rest, acc =>
    if (chain_lengths.lookup chain_1).isNone ||
        (chain_lengths.lookup chain_2).isNone then
      .error ("Invalid chain names: " ++ chain_1 ++ ", " ++ chain_2)
    else
      let total_chain_residue_len := (chain_lengths.lookup chain_1).getD 0
      let len_2 := (chain_lengths.lookup chain_2).getD 0
      if total_chain_residue_len = len_2 then
        buildTiedLoop chain_lengths chain_starts rest
          (acc ++ (List.range total_chain_residue_len).map (fun k =>
            mkTiedRecord chain_1 chain_2 (k + 1) weight))
      else
        .error ("Chains " ++ chain_1 ++ " (" ++
          toString total_chain_residue_len ++ ") and " ++ chain_2 ++ " (" ++
          toString len_2 ++ ") must have the same length")

/-- The result dict of `create_fixed_and_tied_residue_sets`. -/
structure BuildResult where
  fixed_residues_by_chain : List (String × List Int)
  tied_residues_by_chain : List TiedRecord
deriving DecidableEq

/-- Embedding of `create_fixed_and_tied_residue_sets` (tied_input_builder.py).
`designed_residues` is only read by the commented-out fixed-residue block, so
the live code ignores it and always returns an empty
`fixed_residues_by_chain`. -/
def create_fixed_and_tied_residue_sets (combined_pose : List Residue)
    (designed_residues : List Int) (tied_chains : List TieRule) :
    Except String BuildResult :=
  let all_tied_chains := tied_chains.map normRule
  match chainLengthsStarts combined_pose with
  | none => .error "IndexError: string index out of range"
  | some (chain_lengths, chain_starts) =>
    match buildTiedLoop chain_lengths chain_starts all_tied_chains [] with
    | .error e => .error e
    | .ok tied_residues_by_chain =>
      .ok { fixed_residues_by_chain := []
            tied_residues_by_chain := tied_residues_by_chain }

/-- Spec-side description of the tied records one pairing rule produces, in
the words of the specification: with `L` the (equal) residue count of the two
chains, one record per offset `i` from 1 to `L` ascending, the record being
the mapping `{chain_1: [[i], [weight]], chain_2: [[i], [weight]]}`, where the
weight of a two-element rule is 1.0. -/
def spec_tiedRecordsForRule (chain_lengths : List (String × Nat))
    (rule : TieRule) : List TiedRecord :=
  let weight : ℚ :=
    match rule with
    | .pair _ _ => 1
    | .triple _ _ w => w
  let L := (chain_lengths.lookup rule.chain1).getD 0
  (List.range L).map (fun k =>
    mkTiedRecord rule.chain1 rule.chain2 (k + 1) weight)

/-! ## tied_input_builder.ProteinMPNNInputFileBuilder

The store's backing directory is modelled at the level of already-parsed JSON
content: each of the three jsonl files is `none` when missing
(`FileNotFoundError` is swallowed and means "no existing records") and
otherwise a list of parsed lines.  `__init__` sets `_existing_pdb_names` and
`_added_pdbs` unconditionally, then either creates the missing directory — in
which case `load_existing_records` is NOT called and the attributes
`_all_tied_records` / `_all_fixed_records` are never assigned (modelled as
`none`; reading them raises AttributeError) — or loads the three files.
-/

/-- One record of `parsed_pdbs.jsonl` as the store observes it:
`load_existing_records` only reads its `name` field, and
`add_tied_and_fixed_pdb` / `store` treat the whole record as an opaque payload
to append, so the record is modelled by its name. -/
structure ParsedPdb where
  name : String
deriving DecidableEq

/-- Embedding of `load_and_merge_existing_json_records` (tied_input_builder.py):
a missing file yields the empty dict, otherwise every line's dict is merged
into one dict via `dict.update` (insert or overwrite each key). -/
def load_and_merge_existing_json_records {α : Type}
    (file_lines : Option (List (List (String × α)))) : List (String × α) :=
  match file_lines with
  | none => []
  | some lines =>
    lines.foldl (fun acc line =>
      line.foldl (fun d p => pyDictSet d p.1 p.2) acc) []

/-- The name-collection pass of `load_existing_records` over
`parsed_pdbs.jsonl`: each line's `name` field is added to the
`_existing_pdb_names` set (modelled as a duplicate-free list); a missing file
contributes nothing. -/
def loadExistingNames (file_records : Option (List ParsedPdb)) : List String :=
  match file_records with
  | none => []
  | some recs =>
    recs.foldl (fun s r => if r.name ∈ s then s else s ++ [r.name]) []

/-- The backing directory of a store: whether it exists, and the parsed
content of the three jsonl files (`none` = file absent). -/
structure BackingDir where
  dirExists : Bool
  tiedFileLines : Option (List (List (String × List TiedRecord)))
  fixedFileLines : Option (List (List (String × List (String × List Int))))
  parsedFileRecords : Option (List ParsedPdb)

/-- In-memory state of a `ProteinMPNNInputFileBuilder`.  The two `Option`
record dicts model the fact that `_all_tied_records` / `_all_fixed_records`
are only ever assigned inside `load_existing_records`: `none` means the
attribute does not exist on the object. -/
structure ProteinMPNNInputFileBuilder where
  existing_pdb_names : List String
  added_pdbs : List ParsedPdb
  all_tied_records : Option (List (String × List TiedRecord))
  all_fixed_records : Option (List (String × List (String × List Int)))
deriving DecidableEq

/-- Embedding of `ProteinMPNNInputFileBuilder.__init__`: when the directory
does not exist it is created empty and `load_existing_records` is skipped
(leaving the tied/fixed record attributes unassigned); otherwise the three
collections are loaded. -/
def mkBuilder (dir : BackingDir) : ProteinMPNNInputFileBuilder :=
  if dir.dirExists then
    { existing_pdb_names := loadExistingNames dir.parsedFileRecords
      added_pdbs := []
      all_tied_records :=
        some (load_and_merge_existing_json_records dir.tiedFileLines)
      all_fixed_records :=
        some (load_and_merge_existing_json_records dir.fixedFileLines) }
  else
    { existing_pdb_names := []
      added_pdbs := []
      all_tied_records := none
      all_fixed_records := none }

/-- Embedding of `ProteinMPNNInputFileBuilder.add_tied_and_fixed_pdb`: raise
`ValueError` when the name is in `_existing_pdb_names`; otherwise store the
tied and fixed records under the name and append the parsed record.  Reading
the never-assigned record dicts raises AttributeError.  Note the method never
inserts `pdb_name` into `_existing_pdb_names`. -/
def add_tied_and_fixed_pdb (b : ProteinMPNNInputFileBuilder)
    (pdb_name : String) (parsed_pdb : ParsedPdb)
    (tied_residues_by_chain : List TiedRecord)
    (fixed_residues_by_chain : List (String × List Int)) :
    Except String ProteinMPNNInputFileBuilder :=
  if pdb_name ∈ b.existing_pdb_names then
    .error ("PDB " ++ pdb_name ++ " already exists in records!")
  else
    match b.all_tied_records, b.all_fixed_records with
    | some tied_records, some fixed_records =>
      .ok { b with
            all_tied_records :=
              some (pyDictSet tied_records pdb_name tied_residues_by_chain)
            all_fixed_records :=
              some (pyDictSet fixed_records pdb_name fixed_residues_by_chain)
            added_pdbs := b.added_pdbs ++ [parsed_pdb] }
    | _, _ =>
      .error "AttributeError: object has no attribute _all_tied_records"

/-! ## tied_run_command.create_protein_mpnn_run_command

The argument dict maps flag names to values; every value is converted to a
string except the seed, which is stored as `int(seed)`.  `' '.join` over the
final argv list raises TypeError on any non-string element, so any run with a
truthy seed raises.  Python's `if seed:` is falsy both for `None` and for
`0`.
-/

/-- A Python value appearing in the command list: `str` or `int`. -/
inductive PyVal where
  | str (s : String)
  | int (n : Int)
deriving DecidableEq

/-- Python `' '.join(xs)` (here generalised over the separator): succeeds only
when every element is a string, otherwise raises TypeError (`none`). -/
def pyJoin (sep : String) (xs : List PyVal) : Option String :=
  (xs.mapM (fun v => match v with
    | PyVal.str s => some s
    | PyVal.int _ => none)).map (fun ss => String.intercalate sep ss)

/-- Embedding of `create_protein_mpnn_run_command` (tied_run_command.py).
All parameters are explicit (the Python defaults are
`num_sequence_per_target=2`, `sampling_temp=0.2`, `batch_size=1`,
`seed=None`, `python_cmd_or_path='python'`). -/
def create_protein_mpnn_run_command
    (protein_mpnn_install_dir_path input_dir_path output_dir_path : String)
    (num_sequence_per_target : Int) (sampling_temp : ℚ) (batch_size : Int)
    (seed : Option Int) (python_cmd_or_path : String) : Option String :=
  let protein_mpnn_args : List (String × PyVal) :=
    [("jsonl_path", .str (input_dir_path ++ "/parsed_pdbs.jsonl")),
     ("tied_positions_jsonl", .str (input_dir_path ++ "/tied_pdbs.jsonl")),
     ("fixed_positions_jsonl", .str (input_dir_path ++ "/fixed_pdbs.jsonl")),
     ("out_folder", .str output_dir_path),
     ("num_seq_per_target", .str (toString num_sequence_per_target)),
     ("sampling_temp", .str (toString sampling_temp)),
     ("batch_size", .str (toString batch_size))]
  let protein_mpnn_args :=
    match seed with
    | some n =>
      -- `if seed:` — truthy only for a nonzero int
      if n ≠ 0 then protein_mpnn_args ++ [("seed", PyVal.int n)]
      else protein_mpnn_args
    | none => protein_mpnn_args
  let py_file_path :=
    protein_mpnn_install_dir_path ++ "/protein_mpnn_run.py"
  let cmd := [PyVal.str python_cmd_or_path, PyVal.str py_file_path] ++
    protein_mpnn_args.foldr
      (fun p acc => PyVal.str ("--" ++ p.1) :: p.2 :: acc) []
  pyJoin " " cmd

/-! ## Concrete fixtures used by witnesses and counterexample evaluations -/

/-- A pairing rule passes the checks of the rule loop when both chains exist
and have the same residue count. -/
def rulePasses (chain_lengths : List (String × Nat))
    (t : String × String × ℚ) : Prop :=
  ∃ L, chain_lengths.lookup t.1 = some L ∧ chain_lengths.lookup t.2.1 = some L

/-- Fixture: a chain-1 residue at the origin. -/
def resA1 : Residue := { chainNum := 1, name1 := 'G', atoms := [("CA", (0, 0, 0))] }

/-- Fixture: a chain-1 residue 5 Å from `resA1` (below the 10 Å cutoff). -/
def resA2 : Residue := { chainNum := 1, name1 := 'A', atoms := [("CA", (3, 4, 0))] }

/-- Fixture: a chain-2 residue 27 Å from `resA2` (beyond the 10 Å cutoff). -/
def resB1 : Residue := { chainNum := 2, name1 := 'L', atoms := [("CA", (30, 4, 0))] }

/-- Fixture: a residue carrying chain number 11, outside the ten-letter
alphabet of pose_to_json. -/
def resBigChain : Residue :=
  { chainNum := 11, name1 := 'G', atoms := [("CA", (0, 0, 0))] }

/-- Fixture: a backing directory that does not exist yet. -/
def fixtureFreshDir : BackingDir :=
  { dirExists := false, tiedFileLines := none, fixedFileLines := none,
    parsedFileRecords := none }

/-- Fixture: an existing backing directory with no record files. -/
def fixtureEmptyDir : BackingDir :=
  { dirExists := true, tiedFileLines := none, fixedFileLines := none,
    parsedFileRecords := none }

/-- Fixture: an existing backing directory whose parsed_pdbs.jsonl already
holds a record named `designX`. -/
def fixtureLoadedDir : BackingDir :=
  { dirExists := true, tiedFileLines := none, fixedFileLines := none,
    parsedFileRecords := some [{ name := "designX" }] }

/-! ## Theorems -/

/-- Structural invariant of the splitting loop: on success, the closed chains
flatten to the processed residues in order, and the `all` accumulator receives
exactly the processed residues in order. -/
theorem splitChainsAux_spec :
    ∀ (rest : List Residue) (r1 : Residue) (cur all : List Residue)
      (chains cs : List (List Residue)) (al : List Residue),
    splitChainsAux r1 rest cur chains all = some (cs, al) →
    cs.flatten = chains.flatten ++ cur ++ (r1 :: rest) ∧
      al = all ++ (r1 :: rest) := by
  intro rest
  induction rest with
  | nil =>
    intro r1 cur all chains cs al h
    simp only [splitChainsAux, Option.some.injEq, Prod.mk.injEq] at h
    obtain ⟨h1, h2⟩ := h
    subst h1
    subst h2
    simp [List.flatten_append]
  | cons r2 rest ih =>
    intro r1 cur all chains cs al h
    unfold splitChainsAux at h
    cases hca1 : r1.atoms.lookup "CA" with
    | none => simp only [hca1] at h; exact Option.noConfusion h
    | some ca1 =>
      cases hca2 : r2.atoms.lookup "CA" with
      | none => simp only [hca1, hca2] at h; exact Option.noConfusion h
      | some ca2 =>
        simp only [hca1, hca2] at h
        by_cases hd : distSq ca1 ca2 > 100
        · rw [if_pos hd] at h
          obtain ⟨h1, h2⟩ := ih r2 [] (all ++ [r1]) (chains ++ [cur ++ [r1]]) cs al h
          refine ⟨?_, by simpa using h2⟩
          rw [h1]
          simp [List.flatten_append]
        · rw [if_neg hd] at h
          obtain ⟨h1, h2⟩ := ih r2 (cur ++ [r1]) (all ++ [r1]) chains cs al h
          refine ⟨?_, by simpa using h2⟩
          rw [h1]
          simp

/-- Chain naming does not alter the chain bodies: the values of the named
association list are the input chains in order. -/
theorem assignChainNames_spec :
    ∀ (cs : List (List Residue)) (i : Nat)
      (named : List (String × List Residue)),
    assignChainNames i cs = some named → named.map Prod.snd = cs := by
  intro cs
  induction cs with
  | nil =>
    intro i named h
    simp only [assignChainNames, Option.some.injEq] at h
    subst h
    rfl
  | cons c cs ih =>
    intro i named h
    unfold assignChainNames at h
    cases hch : chain_names26.toList.get? i with
    | none => simp only [hch] at h; exact Option.noConfusion h
    | some ch =>
      cases hrec : assignChainNames (i + 1) cs with
      | none => simp only [hch, hrec] at h; simp at h
      | some rest =>
        simp only [hch, hrec] at h
        have h2 : (Char.toString ch, c) :: rest = named := by simpa using h
        subst h2
        simp [ih _ _ hrec]

/-- Claim C6: whenever `split_chains_by_residue_distance` returns, the
concatenation of the per-chain residue lists, taken in chain-discovery order
(the returned entries before the final `'all'` entry), reproduces the
original residue order exactly, and the `'all'` entry is the last entry and
contains every residue in original order. -/
theorem claim_C6 (input_pose : List Residue)
    (result : List (String × List Residue))
    (h : split_chains_by_residue_distance input_pose = some result) :
    (result.dropLast.map Prod.snd).flatten = input_pose ∧
      result.getLast? = some ("all", input_pose) := by
  cases input_pose with
  | nil => exact Option.noConfusion h
  | cons r1 rs0 =>
    cases rs0 with
    | nil => exact Option.noConfusion h
    | cons r2 rest =>
      simp only [split_chains_by_residue_distance] at h
      cases haux : splitChainsAux r1 (r2 :: rest) [] [] [] with
      | none => simp only [haux] at h; exact Option.noConfusion h
      | some p =>
        obtain ⟨chains, all_residue⟩ := p
        cases hnames : assignChainNames 0 chains with
        | none => simp only [haux, hnames] at h; exact Option.noConfusion h
        | some named =>
          simp only [haux, hnames] at h
          obtain ⟨h1, h2⟩ :=
            splitChainsAux_spec (r2 :: rest) r1 [] [] [] chains all_residue haux
          have hnm := assignChainNames_spec chains 0 named hnames
          have h3 : named ++ [("all", all_residue)] = result := by simpa using h
          subst h3
          constructor
          · rw [List.dropLast_concat, hnm, h1]
            simp
          · rw [List.getLast?_concat, h2]
            simp

/-- Claim C7 (divergence witness): on a single-residue pose the partitioner
does not return one chain of length 1 — the pairwise loop body never runs, so
the Python code raises UnboundLocalError on `r2` (modelled: the embedding
returns `none`). -/
theorem claim_C7_bug : split_chains_by_residue_distance [resA1] = none := rfl

/-- Witness for claim C6 at a concrete two-residue pose forming one chain. -/
theorem claim_C6_witness :
    ((([("A", [resA1, resA2]), ("all", [resA1, resA2])] :
        List (String × List Residue)).dropLast.map Prod.snd).flatten =
      [resA1, resA2]) ∧
      ([("A", [resA1, resA2]), ("all", [resA1, resA2])] :
        List (String × List Residue)).getLast? =
        some ("all", [resA1, resA2]) :=
  claim_C6 [resA1, resA2] [("A", [resA1, resA2]), ("all", [resA1, resA2])] rfl

/-- Chain numbers above ten fall outside the ten-letter `CHAIN_NAMES`
alphabet: the subscript `CHAIN_NAMES[chain - 1]` raises IndexError. -/
theorem pyStrGet_chainNames_gt_ten (c : Nat) (hc : 10 < c) :
    pyStrGet CHAIN_NAMES ((c : Int) - 1) = none := by
  simp only [pyStrGet, CHAIN_NAMES]
  have hlen : ((("ABCDEFGHIJ" : String).length : Nat) : Int) = 10 := rfl
  rw [hlen]
  have h1 : ¬ ((c : Int) - 1 < 0) := by omega
  rw [if_neg h1]
  have h2 : ¬ (0 ≤ (c : Int) - 1 ∧ (c : Int) - 1 < 10) := by omega
  rw [if_neg h2]

/-- The residue loop of `get_pose_details_by_chain` raises as soon as it
reaches a residue whose chain number exceeds ten, whatever state it has
accumulated. -/
theorem getPoseDetailsGo_none (desired_atoms : List String) :
    ∀ (rs : List Residue) (chains : List (String × ChainDetails)),
    (∃ r ∈ rs, 10 < r.chainNum) →
    getPoseDetailsGo desired_atoms rs chains = none := by
  intro rs
  induction rs with
  | nil =>
    intro chains h
    obtain ⟨r, hmem, _⟩ := h
    exact absurd hmem (List.not_mem_nil r)
  | cons r rest ih =>
    intro chains h
    unfold getPoseDetailsGo
    by_cases hr : 10 < r.chainNum
    · rw [pyStrGet_chainNames_gt_ten r.chainNum hr]
    · have hrest : ∃ r2 ∈ rest, 10 < r2.chainNum := by
        obtain ⟨r2, hmem, h10⟩ := h
        rcases List.mem_cons.mp hmem with heq | hmem2
        · exact absurd (heq ▸ h10) hr
        · exact ⟨r2, hmem2, h10⟩
      cases hch : pyStrGet CHAIN_NAMES ((r.chainNum : Int) - 1) with
      | none => rfl
      | some ch =>
        simp only [hch]
        cases hp : processAtoms r (Char.toString ch) desired_atoms
            { xyz := ((chains.lookup (Char.toString ch)).getD
                emptyChainDetails).xyz,
              sequence := (((chains.lookup (Char.toString ch)).getD
                emptyChainDetails).sequence.push r.name1) } with
        | none => rfl
        | some cd2 =>
          simp only [hp]
          exact ih _ hrest

/-- Claim C10: the pose-to-record conversion is only defined for chain
numbers that index the ten-letter alphabet — any pose containing a residue
whose chain number exceeds 10 makes `get_pose_details_by_chain` fail with the
out-of-range index lookup instead of returning, and therefore
`make_protein_mpnn_pdb_input` produces no record either. -/
theorem claim_C10 (input_pose : List Residue) (pose_name : String)
    (desired_atoms : List String)
    (h : ∃ r ∈ input_pose, 10 < r.chainNum) :
    get_pose_details_by_chain input_pose desired_atoms = none ∧
      make_protein_mpnn_pdb_input pose_name input_pose = none := by
  constructor
  · exact getPoseDetailsGo_none desired_atoms input_pose [] h
  · unfold make_protein_mpnn_pdb_input
    rw [show get_pose_details_by_chain input_pose DEFAULT_DESIRED_ATOMS = none
      from getPoseDetailsGo_none DEFAULT_DESIRED_ATOMS input_pose [] h]

/-- Witness for claim C10 at a one-residue pose carrying chain number 11. -/
theorem claim_C10_witness :
    get_pose_details_by_chain [resBigChain] DEFAULT_DESIRED_ATOMS = none ∧
      make_protein_mpnn_pdb_input "design" [resBigChain] = none :=
  claim_C10 [resBigChain] "design" DEFAULT_DESIRED_ATOMS
    ⟨resBigChain, List.mem_singleton.mpr rfl, by decide⟩

/-- On success the rule loop appends, after the accumulator, exactly the
per-rule record blocks in rule order: for each normalised rule `(c1, c2, w)`
the block is one record per offset 1..L over the length `L` of `c1`. -/
theorem buildTiedLoop_ok_eq (chain_lengths chain_starts : List (String × Nat)) :
    ∀ (rules : List (String × String × ℚ)) (acc out : List TiedRecord),
    buildTiedLoop chain_lengths chain_starts rules acc = .ok out →
    out = acc ++ (rules.map (fun t =>
      (List.range ((chain_lengths.lookup t.1).getD 0)).map
        (fun k => mkTiedRecord t.1 t.2.1 (k + 1) t.2.2))).flatten := by
  intro rules
  induction rules with
  | nil =>
    intro acc out h
    simp only [buildTiedLoop] at h
    cases h
    simp
  | cons t rest ih =>
    obtain ⟨c1, c2, w⟩ := t
    intro acc out h
    unfold buildTiedLoop at h
    by_cases h1 : ((chain_lengths.lookup c1).isNone ||
        (chain_lengths.lookup c2).isNone) = true
    · rw [if_pos h1] at h
      exact Except.noConfusion h
    · rw [if_neg h1] at h
      by_cases h2 : (chain_lengths.lookup c1).getD 0 =
          (chain_lengths.lookup c2).getD 0
      · rw [if_pos h2] at h
        have := ih _ _ h
        rw [this]
        simp [List.append_assoc]
      · rw [if_neg h2] at h
        exact Except.noConfusion h

/-- Processing a prefix of rules that all pass the checks only grows the
accumulator: the loop then continues on the remaining rules. -/
theorem buildTiedLoop_skip (chain_lengths chain_starts : List (String × Nat)) :
    ∀ (pre rest : List (String × String × ℚ)) (acc : List TiedRecord),
    (∀ t ∈ pre, rulePasses chain_lengths t) →
    ∃ acc2, buildTiedLoop chain_lengths chain_starts (pre ++ rest) acc =
      buildTiedLoop chain_lengths chain_starts rest acc2 := by
  intro pre
  induction pre with
  | nil => intro rest acc hpre; exact ⟨acc, rfl⟩
  | cons t pre ih =>
    obtain ⟨c1, c2, w⟩ := t
    intro rest acc hpre
    obtain ⟨L, hL1, hL2⟩ := hpre (c1, c2, w) (List.mem_cons_self _ _)
    have hpre2 : ∀ t ∈ pre, rulePasses chain_lengths t :=
      fun t ht => hpre t (List.mem_cons_of_mem _ ht)
    obtain ⟨acc2, hacc2⟩ := ih rest (acc ++ (List.range L).map
      (fun k => mkTiedRecord c1 c2 (k + 1) w)) hpre2
    refine ⟨acc2, ?_⟩
    have hstep : buildTiedLoop chain_lengths chain_starts
        ((c1, c2, w) :: (pre ++ rest)) acc =
        buildTiedLoop chain_lengths chain_starts (pre ++ rest)
          (acc ++ (List.range L).map (fun k => mkTiedRecord c1 c2 (k + 1) w)) := by
      simp [buildTiedLoop, hL1, hL2]
    rw [List.cons_append, hstep, hacc2]

/-- The normalised rule is the pair of chain names together with the rule
weight (1.0 for a two-element rule). -/
theorem normRule_eq (rule : TieRule) :
    normRule rule = (rule.chain1, rule.chain2,
      match rule with
      | .pair _ _ => (1 : ℚ)
      | .triple _ _ w => w) := by
  cases rule <;> rfl

/-- Claim C1: whenever `create_fixed_and_tied_residue_sets` returns, its tied
records are exactly, per pairing rule in rule order, one record per offset
`i` from 1 to the (equal) chain length `L` ascending, the record being
`{chain_1: [[i], [weight]], chain_2: [[i], [weight]]}` with weight 1.0 when
the rule is a two-element pair — as captured by `spec_tiedRecordsForRule`,
with the per-rule blocks concatenated in rule order. -/
theorem claim_C1 (combined_pose : List Residue) (designed_residues : List Int)
    (tied_chains : List TieRule)
    (chain_lengths chain_starts : List (String × Nat)) (res : BuildResult)
    (hscan : chainLengthsStarts combined_pose =
      some (chain_lengths, chain_starts))
    (hok : create_fixed_and_tied_residue_sets combined_pose designed_residues
      tied_chains = .ok res) :
    res.tied_residues_by_chain =
      (tied_chains.map (spec_tiedRecordsForRule chain_lengths)).flatten := by
  unfold create_fixed_and_tied_residue_sets at hok
  rw [hscan] at hok
  cases hloop : buildTiedLoop chain_lengths chain_starts
      (tied_chains.map normRule) [] with
  | error e => simp only [hloop] at hok; exact Except.noConfusion hok
  | ok tied =>
    simp only [hloop] at hok
    have hres : res = { fixed_residues_by_chain := []
                        tied_residues_by_chain := tied } := by
      cases hok
      rfl
    subst hres
    have heq := buildTiedLoop_ok_eq chain_lengths chain_starts
      (tied_chains.map normRule) [] tied hloop
    rw [heq]
    simp only [List.nil_append, List.map_map]
    have hfun : ((fun t : String × String × ℚ =>
        (List.range ((chain_lengths.lookup t.1).getD 0)).map
          (fun k => mkTiedRecord t.1 t.2.1 (k + 1) t.2.2)) ∘ normRule) =
        spec_tiedRecordsForRule chain_lengths := by
      funext rule
      cases rule <;> rfl
    rw [hfun]

/-- Witness for claim C1: two chains of length one tied by a weightless pair
rule produce exactly one record at offset 1 with weight 1.0. -/
theorem claim_C1_witness :
    ({ fixed_residues_by_chain := []
       tied_residues_by_chain :=
         [[("A", ([1], [1])), ("B", ([1], [1]))]] } :
        BuildResult).tied_residues_by_chain =
      (([TieRule.pair "A" "B"]).map
        (spec_tiedRecordsForRule [("A", 1), ("B", 1)])).flatten :=
  claim_C1 [resA1, resB1] [] [TieRule.pair "A" "B"]
    [("A", 1), ("B", 1)] [("A", 1), ("B", 2)]
    { fixed_residues_by_chain := []
      tied_residues_by_chain := [[("A", ([1], [1])), ("B", ([1], [1]))]] }
    rfl rfl

/-- Claim C4: a pairing rule naming two existing chains of unequal lengths
makes `create_fixed_and_tied_residue_sets` raise (fail fast when the rule is
reached, i.e. with every earlier rule passing the checks) with the
assertion message reporting both chain names and both chain lengths. -/
theorem claim_C4 (combined_pose : List Residue) (designed_residues : List Int)
    (pre post : List TieRule) (rule : TieRule)
    (chain_lengths chain_starts : List (String × Nat)) (L1 L2 : Nat)
    (hscan : chainLengthsStarts combined_pose =
      some (chain_lengths, chain_starts))
    (h1 : chain_lengths.lookup rule.chain1 = some L1)
    (h2 : chain_lengths.lookup rule.chain2 = some L2)
    (hne : L1 ≠ L2)
    (hpre : ∀ r ∈ pre, rulePasses chain_lengths (normRule r)) :
    create_fixed_and_tied_residue_sets combined_pose designed_residues
      (pre ++ rule :: post) =
      .error ("Chains " ++ rule.chain1 ++ " (" ++ toString L1 ++ ") and " ++
        rule.chain2 ++ " (" ++ toString L2 ++ ") must have the same length") := by
  simp only [create_fixed_and_tied_residue_sets, hscan]
  have hpremap : ∀ t ∈ pre.map normRule, rulePasses chain_lengths t := by
    intro t ht
    obtain ⟨r, hr, hrt⟩ := List.mem_map.mp ht
    exact hrt ▸ hpre r hr
  rw [List.map_append, List.map_cons]
  obtain ⟨acc2, hskip⟩ := buildTiedLoop_skip chain_lengths chain_starts
    (pre.map normRule) (normRule rule :: post.map normRule) [] hpremap
  rw [hskip]
  have hstep : buildTiedLoop chain_lengths chain_starts
      (normRule rule :: post.map normRule) acc2 =
      .error ("Chains " ++ rule.chain1 ++ " (" ++ toString L1 ++ ") and " ++
        rule.chain2 ++ " (" ++ toString L2 ++
        ") must have the same length") := by
    rw [normRule_eq rule]
    simp [buildTiedLoop, h1, h2, hne]
  rw [hstep]

/-- Claim C5: a pairing rule naming a chain absent from the combined
structure makes `create_fixed_and_tied_residue_sets` raise (fail fast when
the rule is reached, i.e. with every earlier rule passing the checks) with
the ValueError message identifying both requested chain names; the error
return carries no tied records. -/
theorem claim_C5 (combined_pose : List Residue) (designed_residues : List Int)
    (pre post : List TieRule) (rule : TieRule)
    (chain_lengths chain_starts : List (String × Nat))
    (hscan : chainLengthsStarts combined_pose =
      some (chain_lengths, chain_starts))
    (hmiss : chain_lengths.lookup rule.chain1 = none ∨
      chain_lengths.lookup rule.chain2 = none)
    (hpre : ∀ r ∈ pre, rulePasses chain_lengths (normRule r)) :
    create_fixed_and_tied_residue_sets combined_pose designed_residues
      (pre ++ rule :: post) =
      .error ("Invalid chain names: " ++ rule.chain1 ++ ", " ++
        rule.chain2) := by
  simp only [create_fixed_and_tied_residue_sets, hscan]
  have hpremap : ∀ t ∈ pre.map normRule, rulePasses chain_lengths t := by
    intro t ht
    obtain ⟨r, hr, hrt⟩ := List.mem_map.mp ht
    exact hrt ▸ hpre r hr
  rw [List.map_append, List.map_cons]
  obtain ⟨acc2, hskip⟩ := buildTiedLoop_skip chain_lengths chain_starts
    (pre.map normRule) (normRule rule :: post.map normRule) [] hpremap
  rw [hskip]
  have hcond : ((chain_lengths.lookup rule.chain1).isNone ||
      (chain_lengths.lookup rule.chain2).isNone) = true := by
    cases hmiss with
    | inl hm => simp [hm]
    | inr hm => simp [hm]
  have hstep : buildTiedLoop chain_lengths chain_starts
      (normRule rule :: post.map normRule) acc2 =
      .error ("Invalid chain names: " ++ rule.chain1 ++ ", " ++
        rule.chain2) := by
    rw [normRule_eq rule]
    simp [buildTiedLoop, hcond]
  rw [hstep]

/-- Witness for claim C4: chains A (length 1) and B (length 2) tied by a
pair rule raise the length-mismatch assertion naming both chains and both
lengths. -/
theorem claim_C4_witness :
    create_fixed_and_tied_residue_sets [resA1, resB1, resB1] []
      [TieRule.pair "A" "B"] =
      .error "Chains A (1) and B (2) must have the same length" :=
  claim_C4 [resA1, resB1, resB1] [] [] [] (TieRule.pair "A" "B")
    [("A", 1), ("B", 2)] [("A", 1), ("B", 2)] 1 2 rfl rfl rfl
    (by decide) (by simp)

/-- Witness for claim C5: a rule naming the absent chain C raises the
invalid-chain-names error identifying both requested names. -/
theorem claim_C5_witness :
    create_fixed_and_tied_residue_sets [resA1, resB1] []
      [TieRule.triple "A" "C" 2] =
      .error "Invalid chain names: A, C" :=
  claim_C5 [resA1, resB1] [] [] [] (TieRule.triple "A" "C" 2)
    [("A", 1), ("B", 1)] [("A", 1), ("B", 2)] rfl (Or.inr rfl) (by simp)

/-- Claim C8: whenever `create_fixed_and_tied_residue_sets` returns, the
returned `fixed_residues_by_chain` mapping is empty — the fixed-residue
computation is a deliberate no-op (the source keeps it commented out). -/
theorem claim_C8 (combined_pose : List Residue) (designed_residues : List Int)
    (tied_chains : List TieRule) (res : BuildResult)
    (hok : create_fixed_and_tied_residue_sets combined_pose designed_residues
      tied_chains = .ok res) :
    res.fixed_residues_by_chain = [] := by
  simp only [create_fixed_and_tied_residue_sets] at hok
  cases hscan : chainLengthsStarts combined_pose with
  | none => simp only [hscan] at hok; exact Except.noConfusion hok
  | some p =>
    obtain ⟨chain_lengths, chain_starts⟩ := p
    simp only [hscan] at hok
    cases hloop : buildTiedLoop chain_lengths chain_starts
        (tied_chains.map normRule) [] with
    | error e => simp only [hloop] at hok; exact Except.noConfusion hok
    | ok tied =>
      simp only [hloop] at hok
      cases hok
      rfl

/-- Witness for claim C8 at a successful concrete build of two tied
chains. -/
theorem claim_C8_witness :
    ({ fixed_residues_by_chain := []
       tied_residues_by_chain :=
         [[("A", ([1], [1])), ("B", ([1], [1]))]] } :
        BuildResult).fixed_residues_by_chain = [] :=
  claim_C8 [resA1, resB1] [] [TieRule.pair "A" "B"]
    { fixed_residues_by_chain := []
      tied_residues_by_chain := [[("A", ([1], [1])), ("B", ([1], [1]))]] }
    rfl

/-- Claim C3 (divergence witness): constructing the store against a
directory that does not exist and then adding a fresh design name does not
stage the record — `__init__` never assigns `_all_tied_records` /
`_all_fixed_records` on this path (only `load_existing_records` does, and it
only runs when the directory already exists), so the first `add` raises
AttributeError instead of succeeding. -/
theorem claim_C3_bug :
    add_tied_and_fixed_pdb (mkBuilder fixtureFreshDir) "design1"
      { name := "design1" } [] [] =
      .error "AttributeError: object has no attribute _all_tied_records" :=
  rfl

/-- Claim C2 (divergence witness): on an existing directory with a loaded
record the duplicate check fires for a name loaded from the backing files
(second conjunct), but a name added earlier in the same session is NOT
detected: `add_tied_and_fixed_pdb` never inserts the new name into
`_existing_pdb_names`, so the second in-session add of `designX` succeeds,
silently overwriting the tied/fixed entries and appending the parsed record
a second time (first conjunct). -/
theorem claim_C2_bug :
    ((add_tied_and_fixed_pdb (mkBuilder fixtureEmptyDir) "designX"
        { name := "designX" } [] []).bind
      (fun b => add_tied_and_fixed_pdb b "designX"
        { name := "designX" } [] []) =
      .ok { existing_pdb_names := []
            added_pdbs := [{ name := "designX" }, { name := "designX" }]
            all_tied_records := some [("designX", [])]
            all_fixed_records := some [("designX", [])] }) ∧
      add_tied_and_fixed_pdb (mkBuilder fixtureLoadedDir) "designX"
        { name := "designX" } [] [] =
        .error "PDB designX already exists in records!" :=
  ⟨rfl, rfl⟩

/-- Claim C9 (divergence witness): with a nonzero seed supplied the command
builder does not return a string at all — the seed is stored as `int(seed)`
among `str` values, so `' '.join` raises TypeError (first conjunct; the
embedding returns `none`).  Without a seed the function does return the
space-joined string with the seven flags, each followed by its value, and no
`--seed` (second conjunct). -/
theorem claim_C9_bug :
    create_protein_mpnn_run_command "/mpnn" "/in" "/out" 2 1 1 (some 42)
      "python" = none ∧
      create_protein_mpnn_run_command "/mpnn" "/in" "/out" 2 1 1 none
        "python" =
        some ("python /mpnn/protein_mpnn_run.py" ++
          " --jsonl_path /in/parsed_pdbs.jsonl" ++
          " --tied_positions_jsonl /in/tied_pdbs.jsonl" ++
          " --fixed_positions_jsonl /in/fixed_pdbs.jsonl" ++
          " --out_folder /out --num_seq_per_target 2" ++
          " --sampling_temp 1 --batch_size 1") :=
  ⟨rfl, rfl⟩
